import Mathlib

/-!
Verification of the live execution-synchronization protocol client
(`useSocketClient`): connection lifecycle, liveness detection, reconnection
policy, message dispatch, and execution-state reconciliation.

The client is embedded shallowly: the module-level mutable variables
(`socketInstance`, `pythonDisconnectedTimeout`, `instances`,
`lastIsAliveCallTimestamp`), the hook-level `reconnectTimeoutRef` and the
workflow store slice read by the hook are gathered into one `ClientState`
record.  Each callback of the source becomes a function from `ClientState`
(and the event payload) to a new `ClientState` together with a list of
emitted `Effect`s (toasts, console errors, transmitted events, transport
operations).  Timers are represented by their absolute due instants
(`Option Nat`); `Date.now()` is the `now` field of the state.
-/

namespace LangwatchStudio

/-- Connection status values of the workflow store: the source strings
"disconnected", "connecting-socket", "connecting-python", "connected". -/
inductive SocketStatus
  | disconnected
  | connectingSocket
  | connectingPython
  | connected
deriving DecidableEq

/-- Execution status values: the source strings "idle", "waiting",
"running", "success", "error". -/
inductive ExecStatus
  | idle
  | waiting
  | running
  | success
  | error
deriving DecidableEq

/-- Timestamps carried by an execution state; only `finished_at` is read or
written by the protocol client. -/
structure Timestamps where
  finished_at : Option Nat := none
deriving DecidableEq

/-- Workflow / component execution state, restricted to the fields the
dispatcher reads or writes: `status`, `error`, `timestamps.finished_at`
and `until_node_id`. -/
structure ExecutionState where
  status : ExecStatus
  error : Option String := none
  timestamps : Timestamps := {}
  until_node_id : Option String := none
deriving DecidableEq

/-- Modelled from the spec: `EvaluationRunState` of the Execution State
Store (its type declaration is not among the source files).  Runs are
identified by `run_id` and ordered by start time; run identifiers are
abstracted here by that temporal order, a newer run carrying a larger
identifier. -/
structure EvaluationState where
  status : ExecStatus
  run_id : Nat
  progress : Nat := 0
  total : Nat := 0
  error : Option String := none
  stdout : Option String := none
deriving DecidableEq

/-- Modelled from the spec: `OptimizationRunState`, symmetric to
`EvaluationRunState` in a separate state slot. -/
structure OptimizationState where
  status : ExecStatus
  run_id : Nat
  error : Option String := none
  stdout : Option String := none
deriving DecidableEq

/-- Per-node data of the workflow graph as read by the client. -/
structure NodeData where
  execution_state : Option ExecutionState := none
deriving DecidableEq

/-- A node of the workflow graph. -/
structure Node where
  id : String
  data : NodeData
deriving DecidableEq

/-- Modelled from the spec: the client→server message envelope
(`StudioClientEvent`, declared in a types module not among the source
files): `is_alive` with empty payload plus workflow-control events, all
sent through the same entry point. -/
inductive StudioClientEvent
  | is_alive
  | control (ty : String)
deriving DecidableEq

/-- Modelled from the spec: the server→client message envelope
(`StudioServerEvent`, declared in a types module not among the source
files), tagged by `type`, with the payload fields the dispatcher reads. -/
inductive StudioServerEvent
  | is_alive_response
  | component_state_change (component_id : String) (execution_state : Option ExecutionState)
  | execution_state_change (execution_state : Option ExecutionState)
  | evaluation_state_change (evaluation_state : Option EvaluationState)
  | optimization_state_change (optimization_state : Option OptimizationState)
  | error (message : String)
  | debug
  | done
  | unknownType (ty : String)
deriving DecidableEq

/-- Toast notification kinds used by the client. -/
inductive ToastKind
  | info
  | error
  | warning
deriving DecidableEq

/-- Observable side effects of the client: user-visible toasts, component
alerts, developer console errors, transmitted events, transport operations,
the deferred request to open a results panel, and the reconnect timer
invoking `connect`. -/
inductive Effect
  | send (ev : StudioClientEvent)
  | devError (msg : String)
  | toast (kind : ToastKind) (title : String) (description : Option String)
  | componentAlert (componentId : String)
  | openWebSocket
  | closeWebSocket
  | retryConnect
  | openResultsPanelLater (panel : String)
deriving DecidableEq

/-- The full client state: module-level variables of the source file
(`socketInstance` split into existence and open flags,
`pythonDisconnectedTimeout`, `instances`, `lastIsAliveCallTimestamp`), the
hook-level `reconnectTimeoutRef`, the workflow store slice used by the
hook, and the current instant `now` standing for `Date.now()`. -/
structure ClientState where
  socketStatus : SocketStatus
  project : Bool
  socketExists : Bool
  socketOpen : Bool
  reconnectTimeout : Option Nat := none
  pythonDisconnectedTimeout : Option Nat := none
  lastIsAliveCallTimestamp : Nat := 0
  instances : Nat := 1
  now : Nat := 0
  nodes : List Node := []
  workflowExecution : Option ExecutionState := none
  evaluation : Option EvaluationState := none
  optimization : Option OptimizationState := none
  playgroundOpen : Bool := false
  selectedNode : Option String := none
  propertiesExpanded : Bool := false
deriving DecidableEq

/-- ASCII lower-casing of a character, as `String.prototype.toLowerCase`
acts on the ASCII error messages matched by the client. -/
def lowerChar (c : Char) : Char :=
  if 65 ≤ c.toNat ∧ c.toNat ≤ 90 then Char.ofNat (c.toNat + 32) else c

/-- Whether the first character list is an initial segment of the second. -/
def charsStartWith : List Char → List Char → Bool
  | [], _ => true
  | _ :: _, [] => false
  | p :: ps, c :: cs => p == c && charsStartWith ps cs

/-- Whether the pattern occurs contiguously inside the character list,
as `String.prototype.includes`. -/
def charsContain (pat : List Char) : List Char → Bool
  | [] => charsStartWith pat []
  | c :: cs => charsStartWith pat (c :: cs) || charsContain pat cs

/-- `message.toLowerCase().includes(pat)` for an already-lower-case
pattern. -/
def strIncludesLowered (m pat : String) : Bool :=
  charsContain pat.toList (m.toList.map lowerChar)

/-- The runtime-unreachable test applied by
`checkIfUnreachableErrorMessage`:
`message?.toLowerCase().includes("runtime is unreachable")`. -/
def unreachableMatch : Option String → Bool
  | some m => strIncludesLowered m "runtime is unreachable"
  | none => false

/-- The classification applied by `alertOnError`:
`message?.toLowerCase().includes("stopped")` or `.includes("interrupted")`. -/
def isStoppedMessage : Option String → Bool
  | some m => strIncludesLowered m "stopped" || strIncludesLowered m "interrupted"
  | none => false

/-- `message?.slice(0, 140)`, the toast description truncation. -/
def slice140 (m : String) : String :=
  String.mk (m.toList.take 140)

/-- `alertOnError`: a message mentioning a stop or interruption yields an
informational toast titled "Stopped"; any other yields an error toast
titled "Error". -/
def alertOnError (message : Option String) : List Effect :=
  if isStoppedMessage message then
    [Effect.toast ToastKind.info "Stopped" (message.map slice140)]
  else
    [Effect.toast ToastKind.error "Error" (message.map slice140)]

/-- Modelled from the spec: `setWorkflowExecutionState` of the Execution
State Store (`useWorkflowStore`, not among the source files) replaces the
stored `WorkflowExecutionState`. -/
def setWorkflowExecutionState (s : ClientState) (st : Option ExecutionState) : ClientState :=
  {s with workflowExecution := st}

/-- Modelled from the spec: `setComponentExecutionState` of the Execution
State Store (not among the source files) writes the given execution state
for the component with the given id. -/
def setComponentExecutionState (s : ClientState) (componentId : String)
    (st : Option ExecutionState) : ClientState :=
  {s with nodes := s.nodes.map fun n =>
    if n.id = componentId then {n with data := {n.data with execution_state := st}} else n}

/-- Modelled from the spec: `setEvaluationState` of the Execution State
Store (not among the source files).  Per the spec it replaces the stored
`EvaluationRunState` only when the incoming `run_id` is current-or-newer;
a stale message carrying an older `run_id`, after a newer run has started,
is dropped. -/
def setEvaluationState (s : ClientState) (st : Option EvaluationState) : ClientState :=
  match s.evaluation, st with
  | some cur, some incoming =>
      if incoming.run_id < cur.run_id then s
      else {s with evaluation := some incoming}
  | _, _ => {s with evaluation := st}

/-- Modelled from the spec: `setOptimizationState`, symmetric to
`setEvaluationState` on the optimization slot. -/
def setOptimizationState (s : ClientState) (st : Option OptimizationState) : ClientState :=
  match s.optimization, st with
  | some cur, some incoming =>
      if incoming.run_id < cur.run_id then s
      else {s with optimization := some incoming}
  | _, _ => {s with optimization := st}

/-- `checkIfUnreachableErrorMessage`: while the status is "connected", a
message whose lower-cased text contains "runtime is unreachable" demotes
the status to "connecting-python". -/
def checkIfUnreachableErrorMessage (s : ClientState) (message : Option String) : ClientState :=
  if s.socketStatus = SocketStatus.connected ∧ unreachableMatch message then
    {s with socketStatus := SocketStatus.connectingPython}
  else s

/-- The loop body of `stopWorkflowIfRunning`: a node whose execution state
is "running" is forced to the given error state; any other node is left
alone. -/
def stopStep (e : ExecutionState) (acc : ClientState) (node : Node) : ClientState :=
  if node.data.execution_state.map (·.status) = some ExecStatus.running then
    setComponentExecutionState acc node.id (some e)
  else acc

/-- `stopWorkflowIfRunning`: sets the workflow execution state to an error
carrying the message and a finish timestamp, then walks the node list
captured at loop entry and forces every component whose execution state is
"running" to the same error state. -/
def stopWorkflowIfRunning (s : ClientState) (message : Option String) : ClientState :=
  s.nodes.foldl
    (stopStep {status := ExecStatus.error, error := message,
               timestamps := {finished_at := some s.now}})
    (setWorkflowExecutionState s
      (some {status := ExecStatus.error, error := message,
             timestamps := {finished_at := some s.now}}))

/-- `handleMessage`: the dispatcher over incoming server events, one case
per `data.type` of the source switch.  The store setters missing from the
source files are the spec-modelled definitions above; `setTimeout`-deferred
panel openings, toasts, component alerts and console errors are emitted as
effects. -/
def handleMessage (s : ClientState) (data : StudioServerEvent) : ClientState × List Effect :=
  match data with
  | StudioServerEvent.is_alive_response =>
      ({s with pythonDisconnectedTimeout := none, socketStatus := SocketStatus.connected}, [])
  | StudioServerEvent.component_state_change component_id execution_state =>
      let currentComponentState :=
        (s.nodes.find? (fun n => n.id == component_id)).bind (·.data.execution_state)
      let s1 := setComponentExecutionState s component_id execution_state
      let r1 : ClientState × List Effect :=
        if execution_state.map (·.status) = some ExecStatus.error then
          (checkIfUnreachableErrorMessage s1 (execution_state.bind (·.error)),
           [Effect.componentAlert component_id])
        else (s1, [])
      if s.playgroundOpen = false ∧
         execution_state.map (·.status) ≠ some ExecStatus.running ∧
         currentComponentState.map (·.status) ≠ some ExecStatus.success ∧
         ((r1.1.workflowExecution.map (·.status) = some ExecStatus.running ∧
           r1.1.workflowExecution.bind (·.until_node_id) = some component_id) ∨
          r1.1.workflowExecution.map (·.status) ≠ some ExecStatus.running)
      then ({r1.1 with selectedNode := some component_id, propertiesExpanded := true}, r1.2)
      else r1
  | StudioServerEvent.execution_state_change execution_state =>
      let s1 := setWorkflowExecutionState s execution_state
      if execution_state.map (·.status) = some ExecStatus.error then
        (stopWorkflowIfRunning s1 (execution_state.bind (·.error)),
         alertOnError (execution_state.bind (·.error)))
      else (s1, [])
  | StudioServerEvent.evaluation_state_change evaluation_state =>
      let currentEvaluationState := s.evaluation
      let s1 := setEvaluationState s evaluation_state
      if evaluation_state.map (·.status) = some ExecStatus.error then
        if currentEvaluationState.map (·.status) ≠ some ExecStatus.waiting then
          (s1, alertOnError (evaluation_state.bind (·.error)) ++
               [Effect.openResultsPanelLater "evaluations"])
        else (s1, alertOnError (evaluation_state.bind (·.error)))
      else (s1, [])
  | StudioServerEvent.optimization_state_change optimization_state =>
      let currentOptimizationState := s.optimization
      let s1 := setOptimizationState s optimization_state
      if optimization_state.map (·.status) = some ExecStatus.error then
        if currentOptimizationState.map (·.status) ≠ some ExecStatus.waiting then
          (s1, alertOnError (optimization_state.bind (·.error)) ++
               [Effect.openResultsPanelLater "optimizations"])
        else (s1, alertOnError (optimization_state.bind (·.error)))
      else (s1, [])
  | StudioServerEvent.error message =>
      let s1 := checkIfUnreachableErrorMessage s (some message)
      let s2 := stopWorkflowIfRunning s1 (some message)
      (s2, alertOnError (some message))
  | StudioServerEvent.debug => (s, [])
  | StudioServerEvent.done => (s, [])
  | StudioServerEvent.unknownType ty =>
      (s, [Effect.toast ToastKind.warning "Unknown message type on client" (some ty)])

/-- `connect`: a no-op without a project or while the current socket is
already open (`readyState === OPEN`); otherwise sets the status to
"connecting-socket" and opens a new transport (initially not yet open). -/
def connect (s : ClientState) : ClientState × List Effect :=
  if s.project = false then (s, [])
  else if s.socketOpen then (s, [])
  else ({s with socketStatus := SocketStatus.connectingSocket,
                socketExists := true, socketOpen := false},
        [Effect.openWebSocket])

/-- The `onopen` transport callback: the socket becomes open, and the
functional `setSocketStatus` update promotes "disconnected" or
"connecting-socket" to "connecting-python", resetting the last liveness
probe timestamp; any other status is kept. -/
def onSocketOpen (s : ClientState) : ClientState :=
  let s1 := {s with socketOpen := true}
  if s1.socketStatus = SocketStatus.disconnected ∨
     s1.socketStatus = SocketStatus.connectingSocket then
    {s1 with lastIsAliveCallTimestamp := 0, socketStatus := SocketStatus.connectingPython}
  else s1

/-- `disconnect`: closes and drops the socket when one exists, clears the
pending reconnect timer when one is armed, and sets the status to
"disconnected".  The module-level `pythonDisconnectedTimeout` is not
touched. -/
def disconnect (s : ClientState) : ClientState × List Effect :=
  let r1 : ClientState × List Effect :=
    if s.socketExists then
      ({s with socketExists := false, socketOpen := false}, [Effect.closeWebSocket])
    else (s, [])
  let s2 :=
    if r1.1.reconnectTimeout.isSome then {r1.1 with reconnectTimeout := none} else r1.1
  ({s2 with socketStatus := SocketStatus.disconnected}, r1.2)

/-- `scheduleReconnect`: ignored while a retry timer is already pending;
otherwise arms one due 5000 ms from now, which on firing clears itself and
calls `connect`. -/
def scheduleReconnect (s : ClientState) : ClientState :=
  if s.reconnectTimeout.isSome then s
  else {s with reconnectTimeout := some (s.now + 5000)}

/-- The `onclose` transport callback: unless a newer socket is already
open, sets the status to "disconnected" and schedules a reconnect. -/
def onSocketClose (s : ClientState) : ClientState :=
  if s.socketOpen then s
  else scheduleReconnect {s with socketStatus := SocketStatus.disconnected}

/-- The `onerror` transport callback: sets the status to "disconnected"
and schedules a reconnect. -/
def onSocketError (s : ClientState) : ClientState :=
  scheduleReconnect {s with socketStatus := SocketStatus.disconnected}

/-- The reconnect timer firing at or after its due instant: clears the
timer reference, then calls `connect`; the `retryConnect` effect marks the
scheduler invoking `connect`.  Not yet due, or no timer: nothing happens. -/
def fireReconnectIfDue (s : ClientState) : ClientState × List Effect :=
  match s.reconnectTimeout with
  | none => (s, [])
  | some t =>
      if t ≤ s.now then
        let r := connect {s with reconnectTimeout := none}
        (r.1, Effect.retryConnect :: r.2)
      else (s, [])

/-- `sendMessage`: serializes and transmits the event only while the
socket is open; otherwise the event is dropped with a console developer
error and nothing else happens. -/
def sendMessage (s : ClientState) (ev : StudioClientEvent) : ClientState × List Effect :=
  if s.socketOpen then (s, [Effect.send ev])
  else (s, [Effect.devError "Cannot send message: WebSocket is not connected"])

/-- `pythonReconnect`: arms the 10-second runtime-dead timeout. -/
def pythonReconnect (s : ClientState) : ClientState :=
  {s with pythonDisconnectedTimeout := some (s.now + 10000)}

/-- `isAlive`: fenced on the attachment counter; records the probe
instant, sends an `is_alive` probe through `sendMessage`, and while
"connected" with no runtime-dead timeout pending arms one. -/
def isAlive (instanceId : Nat) (s : ClientState) : ClientState × List Effect :=
  if instanceId ≠ s.instances then (s, [])
  else
    let s1 := {s with lastIsAliveCallTimestamp := s.now}
    let r := sendMessage s1 StudioClientEvent.is_alive
    if r.1.socketStatus = SocketStatus.connected ∧ r.1.pythonDisconnectedTimeout = none then
      (pythonReconnect r.1, r.2)
    else r

/-- The probe cadence chosen by the liveness interval, installed for every
connection status: 5000 ms while "connecting-python", 30000 ms otherwise. -/
def probeIntervalMs (status : SocketStatus) : Nat :=
  if status = SocketStatus.connectingPython then 5000 else 30000

/-- Shorthand for the node update performed by
`setComponentExecutionState` on a matching node. -/
def updNode (st : Option ExecutionState) (m : Node) : Node :=
  {m with data := {m.data with execution_state := st}}

/-! Helper lemmas about the cascade-stop fold. -/

theorem setComponentExecutionState_nodes (s : ClientState) (cid : String)
    (st : Option ExecutionState) :
    (setComponentExecutionState s cid st).nodes
      = s.nodes.map (fun m => if m.id = cid then updNode st m else m) := rfl

theorem foldl_stopStep_socketStatus (e : ExecutionState) (todo : List Node) :
    ∀ acc : ClientState, (todo.foldl (stopStep e) acc).socketStatus = acc.socketStatus := by
  induction todo with
  | nil => intro acc; rfl
  | cons n rest ih =>
      intro acc
      rw [List.foldl_cons, ih]
      unfold stopStep
      by_cases hp : n.data.execution_state.map (·.status) = some ExecStatus.running
      · rw [if_pos hp]; rfl
      · rw [if_neg hp]

theorem foldl_stopStep_nodes (e : ExecutionState) (todo : List Node) :
    ∀ acc : ClientState,
    (todo.foldl (stopStep e) acc).nodes
      = acc.nodes.map (fun m =>
          if ∃ n ∈ todo,
              n.data.execution_state.map (·.status) = some ExecStatus.running ∧ n.id = m.id
          then updNode (some e) m else m) := by
  induction todo with
  | nil =>
      intro acc
      have hfun : (fun m : Node =>
          if ∃ n ∈ ([] : List Node),
              n.data.execution_state.map (·.status) = some ExecStatus.running ∧ n.id = m.id
          then updNode (some e) m else m) = fun m => m := by
        funext m
        rw [if_neg]
        rintro ⟨n, hn, -⟩
        exact List.not_mem_nil n hn
      rw [List.foldl_nil, hfun]
      exact (List.map_id' acc.nodes).symm
  | cons n rest ih =>
      intro acc
      rw [List.foldl_cons]
      by_cases hp : n.data.execution_state.map (·.status) = some ExecStatus.running
      · have hstep : stopStep e acc n = setComponentExecutionState acc n.id (some e) := by
          unfold stopStep; rw [if_pos hp]
        rw [hstep, ih, setComponentExecutionState_nodes, List.map_map]
        have hfun : ((fun m : Node =>
              if ∃ k ∈ rest,
                  k.data.execution_state.map (·.status) = some ExecStatus.running ∧ k.id = m.id
              then updNode (some e) m else m) ∘
            (fun m : Node => if m.id = n.id then updNode (some e) m else m))
          = (fun m : Node =>
              if ∃ k ∈ n :: rest,
                  k.data.execution_state.map (·.status) = some ExecStatus.running ∧ k.id = m.id
              then updNode (some e) m else m) := by
          funext m
          simp only [Function.comp_apply]
          by_cases hid : m.id = n.id
          · rw [if_pos hid]
            have hmem : ∃ k ∈ n :: rest,
                k.data.execution_state.map (·.status) = some ExecStatus.running ∧ k.id = m.id :=
              ⟨n, List.mem_cons_self n rest, hp, hid.symm⟩
            rw [if_pos hmem]
            split <;> rfl
          · rw [if_neg hid]
            refine if_congr ?_ rfl rfl
            constructor
            · rintro ⟨k, hk, hpk, hkid⟩
              exact ⟨k, List.mem_cons_of_mem n hk, hpk, hkid⟩
            · rintro ⟨k, hk, hpk, hkid⟩
              rcases List.mem_cons.mp hk with hkn | hk2
              · subst hkn
                exact absurd hkid.symm hid
              · exact ⟨k, hk2, hpk, hkid⟩
        rw [hfun]
      · have hstep : stopStep e acc n = acc := by
          unfold stopStep; rw [if_neg hp]
        rw [hstep, ih]
        have hfun : (fun m : Node =>
              if ∃ k ∈ rest,
                  k.data.execution_state.map (·.status) = some ExecStatus.running ∧ k.id = m.id
              then updNode (some e) m else m)
          = (fun m : Node =>
              if ∃ k ∈ n :: rest,
                  k.data.execution_state.map (·.status) = some ExecStatus.running ∧ k.id = m.id
              then updNode (some e) m else m) := by
          funext m
          refine if_congr ?_ rfl rfl
          constructor
          · rintro ⟨k, hk, hpk, hkid⟩
            exact ⟨k, List.mem_cons_of_mem n hk, hpk, hkid⟩
          · rintro ⟨k, hk, hpk, hkid⟩
            rcases List.mem_cons.mp hk with hkn | hk2
            · subst hkn
              exact absurd hpk hp
            · exact ⟨k, hk2, hpk, hkid⟩
        rw [hfun]

theorem stopWorkflowIfRunning_nodes (s : ClientState) (message : Option String) :
    (stopWorkflowIfRunning s message).nodes
      = s.nodes.map (fun m =>
          if ∃ n ∈ s.nodes,
              n.data.execution_state.map (·.status) = some ExecStatus.running ∧ n.id = m.id
          then updNode (some {status := ExecStatus.error, error := message,
                              timestamps := {finished_at := some s.now}}) m
          else m) := by
  unfold stopWorkflowIfRunning
  rw [foldl_stopStep_nodes]
  rfl

theorem stopWorkflowIfRunning_socketStatus (s : ClientState) (message : Option String) :
    (stopWorkflowIfRunning s message).socketStatus = s.socketStatus := by
  unfold stopWorkflowIfRunning
  rw [foldl_stopStep_socketStatus]
  rfl

theorem handleMessage_exec_error (s : ClientState) (es : ExecutionState)
    (hstatus : es.status = ExecStatus.error) :
    handleMessage s (StudioServerEvent.execution_state_change (some es))
      = (stopWorkflowIfRunning (setWorkflowExecutionState s (some es)) es.error,
         alertOnError es.error) := by
  have hc : (some es).map (fun x : ExecutionState => x.status) = some ExecStatus.error := by
    rw [Option.map_some', hstatus]
  unfold handleMessage
  dsimp only
  rw [if_pos hc]
  rfl

theorem handleMessage_eval_state (s : ClientState) (ev : Option EvaluationState) :
    (handleMessage s (StudioServerEvent.evaluation_state_change ev)).1
      = setEvaluationState s ev := by
  unfold handleMessage
  dsimp only
  split
  · split <;> rfl
  · rfl

theorem setEvaluationState_some_some (s : ClientState) (cur incoming : EvaluationState)
    (hcur : s.evaluation = some cur) :
    setEvaluationState s (some incoming)
      = if incoming.run_id < cur.run_id then s else {s with evaluation := some incoming} := by
  unfold setEvaluationState
  rw [hcur]

theorem sendMessage_closed (s : ClientState) (ev : StudioClientEvent)
    (h : s.socketOpen = false) :
    sendMessage s ev
      = (s, [Effect.devError "Cannot send message: WebSocket is not connected"]) := by
  unfold sendMessage
  have hc : ¬ (s.socketOpen = true) := by simp [h]
  rw [if_neg hc]

/-! The claims. -/

/-- Claim C6: given connection state ConnectingRuntime with an armed
LivenessTimer, processing an `is_alive_response` server event within the
timeout window cancels the pending LivenessTimer, leaving no outstanding
liveness timeout, and transitions the connection state to Connected. -/
theorem c6_liveness_roundtrip (s : ClientState) (t : Nat)
    (_hst : s.socketStatus = SocketStatus.connectingPython)
    (_htimer : s.pythonDisconnectedTimeout = some t)
    (_hwin : s.now < t) :
    (handleMessage s StudioServerEvent.is_alive_response).1.pythonDisconnectedTimeout = none ∧
    (handleMessage s StudioServerEvent.is_alive_response).1.socketStatus
      = SocketStatus.connected :=
  ⟨rfl, rfl⟩

/-- Concrete state for the C6 witness: connecting-python, liveness timer
armed to fire at instant 11000, current instant 2000. -/
def stateC6 : ClientState :=
  {socketStatus := SocketStatus.connectingPython, project := true,
   socketExists := true, socketOpen := true,
   pythonDisconnectedTimeout := some 11000, now := 2000}

/-- Witness for C6 at a concrete state. -/
theorem c6_liveness_roundtrip_witness :
    (handleMessage stateC6 StudioServerEvent.is_alive_response).1.pythonDisconnectedTimeout
      = none ∧
    (handleMessage stateC6 StudioServerEvent.is_alive_response).1.socketStatus
      = SocketStatus.connected :=
  c6_liveness_roundtrip stateC6 11000 (by decide) (by decide) (by decide)

/-- Claim C7: calling `connect` while a connection is already open is a
no-op: no new transport is opened, the connection state is not changed,
and no execution state (workflow, component, evaluation, optimization) is
reset — the state is returned unchanged with no effects. -/
theorem c7_idempotent_connect (s : ClientState) (hOpen : s.socketOpen = true) :
    connect s = (s, []) := by
  unfold connect
  by_cases hp : s.project = false
  · rw [if_pos hp]
  · rw [if_neg hp, if_pos hOpen]

/-- Concrete state for the C7 witness: connected with an open socket and
non-trivial execution state. -/
def stateC7 : ClientState :=
  {socketStatus := SocketStatus.connected, project := true,
   socketExists := true, socketOpen := true,
   nodes := [⟨"llm_call", ⟨some {status := ExecStatus.running}⟩⟩],
   workflowExecution := some {status := ExecStatus.running},
   evaluation := some {status := ExecStatus.running, run_id := 3}}

/-- Witness for C7 at a concrete state. -/
theorem c7_idempotent_connect_witness : connect stateC7 = (stateC7, []) :=
  c7_idempotent_connect stateC7 (by decide)

/-- Claim C8: `sendMessage` transmits the serialized event if and only if
the transport is open; when it is not open the event is dropped with a
developer-visible console error, no user-visible toast, and in either case
no state is mutated. -/
theorem c8_send_only_when_open (s : ClientState) (ev : StudioClientEvent) :
    (sendMessage s ev).1 = s ∧
    (sendMessage s ev).2 =
      (if s.socketOpen then [Effect.send ev]
       else [Effect.devError "Cannot send message: WebSocket is not connected"]) := by
  unfold sendMessage
  refine ⟨?_, ?_⟩ <;> split <;> rfl

/-- Claim C9: the liveness probe interval runs for the newest attachment
in every connection state: for every status other than connecting-python,
including disconnected and connecting-socket, the installed cadence is
30000 ms; and a probe sent while the transport is not open is dropped by
`sendMessage` with a developer error only, rather than suppressed or
crashing. -/
theorem c9_probe_in_every_state (s : ClientState) (inst : Nat)
    (hInst : inst = s.instances)
    (hStatus : s.socketStatus ≠ SocketStatus.connectingPython)
    (hOpen : s.socketOpen = false) :
    probeIntervalMs s.socketStatus = 30000 ∧
    (isAlive inst s).2
      = [Effect.devError "Cannot send message: WebSocket is not connected"] := by
  constructor
  · unfold probeIntervalMs
    rw [if_neg hStatus]
  · unfold isAlive
    have h1 : ¬ (inst ≠ s.instances) := by simp [hInst]
    rw [if_neg h1]
    dsimp only
    rw [sendMessage_closed {s with lastIsAliveCallTimestamp := s.now}
          StudioClientEvent.is_alive hOpen]
    split <;> rfl

/-- Concrete state for the C9 witness: disconnected with a closed
transport, single attachment. -/
def stateC9 : ClientState :=
  {socketStatus := SocketStatus.disconnected, project := true,
   socketExists := false, socketOpen := false, instances := 1, now := 500}

/-- Witness for C9 at a concrete state. -/
theorem c9_probe_in_every_state_witness :
    probeIntervalMs stateC9.socketStatus = 30000 ∧
    (isAlive 1 stateC9).2
      = [Effect.devError "Cannot send message: WebSocket is not connected"] :=
  c9_probe_in_every_state stateC9 1 (by decide) (by decide) (by decide)

/-- Claim C10: processing an `is_alive_response` event sets the connection
status to connected unconditionally, from any current status — in
particular a direct disconnected → connected transition is permitted — and
the only other state change is clearing the runtime-dead timeout; there is
no guard on the current status or on the transport being open. -/
theorem c10_is_alive_response_unconditional (s : ClientState) :
    (handleMessage s StudioServerEvent.is_alive_response).1.socketStatus
      = SocketStatus.connected ∧
    (handleMessage s StudioServerEvent.is_alive_response).1
      = {s with socketStatus := SocketStatus.connected, pythonDisconnectedTimeout := none} :=
  ⟨rfl, rfl⟩

/-- Claim C1: for every workflow node whose component execution state has
status running, receiving an `execution_state_change` server event whose
execution state has status error with error message m sets that component
execution state to status error with the same error message m and a
finish timestamp, so no component remains in status running after the
workflow itself errors. -/
theorem c1_cascade_stop (s : ClientState) (es : ExecutionState)
    (hstatus : es.status = ExecStatus.error)
    (i : Nat) (hi : i < s.nodes.length)
    (hrun : s.nodes[i].data.execution_state.map (·.status)
              = some ExecStatus.running) :
    ((handleMessage s (StudioServerEvent.execution_state_change (some es))).1.nodes[i]?).map
        (fun n => n.data.execution_state)
      = some (some {status := ExecStatus.error, error := es.error,
                    timestamps := {finished_at := some s.now}}) ∧
    ∀ n ∈ (handleMessage s (StudioServerEvent.execution_state_change (some es))).1.nodes,
      ¬ n.data.execution_state.map (·.status) = some ExecStatus.running := by
  rw [handleMessage_exec_error s es hstatus]
  dsimp only
  rw [stopWorkflowIfRunning_nodes]
  dsimp only [setWorkflowExecutionState]
  constructor
  · rw [List.getElem?_map, List.getElem?_eq_getElem hi, Option.map_some', Option.map_some']
    rw [if_pos ⟨s.nodes[i], List.getElem_mem hi, hrun, rfl⟩]
    rfl
  · intro n hn
    rcases List.mem_map.mp hn with ⟨m, hm, rfl⟩
    by_cases hc : ∃ k ∈ s.nodes,
        k.data.execution_state.map (·.status) = some ExecStatus.running ∧ k.id = m.id
    · rw [if_pos hc]
      intro hbad
      simp [updNode] at hbad
    · rw [if_neg hc]
      intro hbad
      exact hc ⟨m, hm, hbad, rfl⟩

/-- Concrete state for the C1 witness: one running node, one idle node. -/
def stateC1 : ClientState :=
  {socketStatus := SocketStatus.connected, project := true,
   socketExists := true, socketOpen := true, now := 1000,
   nodes := [⟨"llm_call", ⟨some {status := ExecStatus.running}⟩⟩,
             ⟨"entry", ⟨some {status := ExecStatus.idle}⟩⟩],
   workflowExecution := some {status := ExecStatus.running}}

/-- Concrete error payload for the C1 witness. -/
def payloadC1 : ExecutionState :=
  {status := ExecStatus.error, error := some "dataset row failed"}

/-- Witness for C1 at a concrete state: the running node at index 0 ends in
the error state carrying the same message and a finish timestamp, and no
node of the resulting state is still running. -/
theorem c1_cascade_stop_witness :
    ((handleMessage stateC1
        (StudioServerEvent.execution_state_change (some payloadC1))).1.nodes[0]?).map
        (fun n => n.data.execution_state)
      = some (some {status := ExecStatus.error, error := some "dataset row failed",
                    timestamps := {finished_at := some 1000}}) ∧
    ∀ n ∈ (handleMessage stateC1
        (StudioServerEvent.execution_state_change (some payloadC1))).1.nodes,
      ¬ n.data.execution_state.map (·.status) = some ExecStatus.running :=
  c1_cascade_stop stateC1 payloadC1 (by decide) 0 (by decide) (by decide)

/-- Claim C2: for a current EvaluationRunState with a given run identifier,
an incoming `evaluation_state_change` carrying an older, superseded run
identifier does not overwrite the stored evaluation state, while an
incoming current-or-newer run identifier replaces it. -/
theorem c2_run_id_staleness (s : ClientState) (cur incoming : EvaluationState)
    (hcur : s.evaluation = some cur)
    (hstale : incoming.run_id < cur.run_id) :
    (handleMessage s (StudioServerEvent.evaluation_state_change (some incoming))).1.evaluation
        = some cur ∧
    ∀ fresh : EvaluationState, ¬ fresh.run_id < cur.run_id →
      (handleMessage s (StudioServerEvent.evaluation_state_change (some fresh))).1.evaluation
        = some fresh := by
  constructor
  · rw [handleMessage_eval_state, setEvaluationState_some_some s cur incoming hcur,
        if_pos hstale]
    exact hcur
  · intro fresh hfresh
    rw [handleMessage_eval_state, setEvaluationState_some_some s cur fresh hcur,
        if_neg hfresh]

/-- Concrete state for the C2 witness: a running evaluation for run 2. -/
def stateC2 : ClientState :=
  {socketStatus := SocketStatus.connected, project := true,
   socketExists := true, socketOpen := true,
   evaluation := some {status := ExecStatus.running, run_id := 2}}

/-- Witness for C2 at a concrete state: a stale message for the superseded
run 1 is dropped; any current-or-newer message replaces the state. -/
theorem c2_run_id_staleness_witness :
    (handleMessage stateC2 (StudioServerEvent.evaluation_state_change
        (some {status := ExecStatus.error, run_id := 1}))).1.evaluation
      = some {status := ExecStatus.running, run_id := 2} ∧
    ∀ fresh : EvaluationState, ¬ fresh.run_id < 2 →
      (handleMessage stateC2 (StudioServerEvent.evaluation_state_change (some fresh))).1.evaluation
        = some fresh :=
  c2_run_id_staleness stateC2
    {status := ExecStatus.running, run_id := 2}
    {status := ExecStatus.error, run_id := 1}
    (by decide) (by decide)

/-- Concrete state for C3: connected, empty graph. -/
def stateC3 : ClientState :=
  {socketStatus := SocketStatus.connected, project := true,
   socketExists := true, socketOpen := true, now := 1000}

/-- Concrete payload for C3: an error execution state whose message
contains the runtime-unreachable phrase. -/
def payloadC3 : ExecutionState :=
  {status := ExecStatus.error, error := some "LLM provider runtime is unreachable"}

/-- Claim C3 counterexample: while connected, an `execution_state_change`
event with status error and the runtime-unreachable message leaves the
connection state at connected — the handler of this event never invokes
the phrase check, so the claimed Connected → ConnectingRuntime transition
does not happen. -/
theorem c3_counterexample :
    stateC3.socketStatus = SocketStatus.connected ∧
    payloadC3.status = ExecStatus.error ∧
    unreachableMatch payloadC3.error = true ∧
    (handleMessage stateC3
        (StudioServerEvent.execution_state_change (some payloadC3))).1.socketStatus
      = SocketStatus.connected := by decide

/-- Claim C3 as amended: the runtime-unreachable phrase match triggers the
Connected → ConnectingRuntime transition when carried by a top-level
`error` event, but an `execution_state_change` event with status error and
the same message does not invoke the phrase check and leaves the
connection state at connected. -/
theorem c3_unreachable_trigger (s : ClientState) (m : String) (es : ExecutionState)
    (hconn : s.socketStatus = SocketStatus.connected)
    (hmatch : unreachableMatch (some m) = true)
    (hes : es.status = ExecStatus.error) (_herr : es.error = some m) :
    (handleMessage s (StudioServerEvent.error m)).1.socketStatus
      = SocketStatus.connectingPython ∧
    (handleMessage s (StudioServerEvent.execution_state_change (some es))).1.socketStatus
      = SocketStatus.connected := by
  constructor
  · have h1 : checkIfUnreachableErrorMessage s (some m)
        = {s with socketStatus := SocketStatus.connectingPython} := by
      unfold checkIfUnreachableErrorMessage
      rw [if_pos ⟨hconn, hmatch⟩]
    show (stopWorkflowIfRunning (checkIfUnreachableErrorMessage s (some m)) (some m)).socketStatus
        = SocketStatus.connectingPython
    rw [stopWorkflowIfRunning_socketStatus, h1]
  · rw [handleMessage_exec_error s es hes]
    dsimp only
    rw [stopWorkflowIfRunning_socketStatus]
    exact hconn

/-- Witness for the amended C3 at a concrete state. -/
theorem c3_unreachable_trigger_witness :
    (handleMessage stateC3
        (StudioServerEvent.error "LLM provider runtime is unreachable")).1.socketStatus
      = SocketStatus.connectingPython ∧
    (handleMessage stateC3
        (StudioServerEvent.execution_state_change (some payloadC3))).1.socketStatus
      = SocketStatus.connected :=
  c3_unreachable_trigger stateC3 "LLM provider runtime is unreachable" payloadC3
    (by decide) (by decide) (by decide) (by decide)

/-- Concrete state for C4: open socket, armed reconnect timer and armed
liveness timer. -/
def stateC4 : ClientState :=
  {socketStatus := SocketStatus.connected, project := true,
   socketExists := true, socketOpen := true,
   reconnectTimeout := some 9000, pythonDisconnectedTimeout := some 7000, now := 50}

/-- Claim C4 counterexample: after `disconnect` the transport is closed,
the state is Disconnected and the reconnect timer is cleared, but the
armed LivenessTimer is NOT cleared — it is still pending, refuting the
claim that `disconnect` clears the active liveness timeout. -/
theorem c4_counterexample :
    stateC4.pythonDisconnectedTimeout = some 7000 ∧
    (disconnect stateC4).1.socketStatus = SocketStatus.disconnected ∧
    (disconnect stateC4).1.reconnectTimeout = none ∧
    (disconnect stateC4).1.pythonDisconnectedTimeout = some 7000 := by decide

/-- Claim C4 as amended: after `disconnect` completes the transport is
closed, the connection state is Disconnected, the pending reconnect retry
timer is cleared, and a second `disconnect` is a no-op (idempotent); the
active LivenessTimer, however, is left untouched rather than cleared. -/
theorem c4_disconnect (s : ClientState)
    (hWf : s.socketOpen = true → s.socketExists = true) :
    (disconnect s).1.socketExists = false ∧
    (disconnect s).1.socketOpen = false ∧
    (disconnect s).1.socketStatus = SocketStatus.disconnected ∧
    (disconnect s).1.reconnectTimeout = none ∧
    (disconnect s).1.pythonDisconnectedTimeout = s.pythonDisconnectedTimeout ∧
    (disconnect s).2 = (if s.socketExists then [Effect.closeWebSocket] else []) ∧
    disconnect (disconnect s).1 = ((disconnect s).1, []) := by
  cases hso : s.socketOpen <;> cases hse : s.socketExists <;> cases hrt : s.reconnectTimeout
  all_goals first
    | exact absurd (hse.symm.trans (hWf hso)) (by decide)
    | simp [disconnect, hse, hrt, hso]

/-- Witness for the amended C4 at the concrete state of the
counterexample. -/
theorem c4_disconnect_witness :
    (disconnect stateC4).1.socketExists = false ∧
    (disconnect stateC4).1.socketOpen = false ∧
    (disconnect stateC4).1.socketStatus = SocketStatus.disconnected ∧
    (disconnect stateC4).1.reconnectTimeout = none ∧
    (disconnect stateC4).1.pythonDisconnectedTimeout = stateC4.pythonDisconnectedTimeout ∧
    (disconnect stateC4).2 = (if stateC4.socketExists then [Effect.closeWebSocket] else []) ∧
    disconnect (disconnect stateC4).1 = ((disconnect stateC4).1, []) :=
  c4_disconnect stateC4 (by decide)

/-- Claim C5: scheduling a reconnect is idempotent — for two transport-loss
events occurring before the pending 5-second retry timer fires, the second
schedule request is ignored, a single timer due exactly 5000 ms after the
first loss remains, its firing invokes exactly one `connect` retry, and a
further firing attempt invokes none. -/
theorem c5_reconnect_idempotent (s : ClientState) (t2 : Nat)
    (hOpen : s.socketOpen = false) (hTimer : s.reconnectTimeout = none)
    (hProj : s.project = true) (_hT1 : s.now ≤ t2) (_hT2 : t2 < s.now + 5000) :
    onSocketClose s
      = {s with socketStatus := SocketStatus.disconnected,
                reconnectTimeout := some (s.now + 5000)} ∧
    onSocketClose {onSocketClose s with now := t2} = {onSocketClose s with now := t2} ∧
    (fireReconnectIfDue
        {onSocketClose {onSocketClose s with now := t2} with now := s.now + 5000}).2
      = [Effect.retryConnect, Effect.openWebSocket] ∧
    (fireReconnectIfDue
        (fireReconnectIfDue
          {onSocketClose {onSocketClose s with now := t2} with now := s.now + 5000}).1).2
      = [] := by
  have hnotOpen : ¬ (s.socketOpen = true) := by simp [hOpen]
  have e1 : onSocketClose s
      = {s with socketStatus := SocketStatus.disconnected,
                reconnectTimeout := some (s.now + 5000)} := by
    unfold onSocketClose scheduleReconnect
    rw [if_neg hnotOpen, if_neg (by simp [hTimer])]
  have e2 : onSocketClose {onSocketClose s with now := t2}
      = {onSocketClose s with now := t2} := by
    rw [e1]
    unfold onSocketClose scheduleReconnect
    rw [if_neg hnotOpen, if_pos (by simp)]
  refine ⟨e1, e2, ?_, ?_⟩
  · rw [e2, e1]
    simp [fireReconnectIfDue, connect, hProj, hOpen]
  · rw [e2, e1]
    simp [fireReconnectIfDue, connect, hProj, hOpen]

/-- Concrete state for the C5 witness: disconnected, closed transport, no
pending timer, at instant 1000; the second loss happens at instant 3000. -/
def stateC5 : ClientState :=
  {socketStatus := SocketStatus.disconnected, project := true,
   socketExists := false, socketOpen := false, now := 1000}

/-- Witness for C5 at a concrete state. -/
theorem c5_reconnect_idempotent_witness :
    onSocketClose stateC5
      = {stateC5 with socketStatus := SocketStatus.disconnected,
                      reconnectTimeout := some 6000} ∧
    onSocketClose {onSocketClose stateC5 with now := 3000}
      = {onSocketClose stateC5 with now := 3000} ∧
    (fireReconnectIfDue
        {onSocketClose {onSocketClose stateC5 with now := 3000} with now := 6000}).2
      = [Effect.retryConnect, Effect.openWebSocket] ∧
    (fireReconnectIfDue
        (fireReconnectIfDue
          {onSocketClose {onSocketClose stateC5 with now := 3000} with now := 6000}).1).2
      = [] :=
  c5_reconnect_idempotent stateC5 3000 (by decide) (by decide) (by decide)
    (by decide) (by decide)

end LangwatchStudio
